import Mathlib

/-!
# HomeActivity (crosspoint-reader): menu dispatch, selection, cover cache, render loop

A shallow embedding of `src/activities/home/HomeActivity.cpp`.

* `std::string` is the list of its chars (`Str`).
* C++ `int` values are `Int`; `/` and `%` are the truncating `Int.tdiv` and
  `Int.tmod`.  The `int` values computed in `loop()` and `render()` are menu
  indices and pixel coordinates, far below `2^31`, so no wrap-around is modelled
  for them.  The one product of unbounded size, `bookSize * continueReadingProgress`
  in `onEnter()`, is computed in the machine type the absent `HomeActivity.h`
  declares; it is the field `scalePercent` of `Env`.
* A pointer that may be `nullptr` is an `Option`; `none` is `nullptr`.
* Collaborators whose code is outside this file of the repository
  (`GfxRenderer`, `SdMan`, `Epub`, `Xtc`, `StringUtils`, FreeRTOS) are inputs:
  either fields of `Env`, or the per-call outcome records `EnterWorld` and
  `RenderWorld`.
* Calls made on collaborators are recorded in the order the code makes them.
-/

namespace HomeActivity

/-! ## Data model -/

/-- A `std::string`, as the sequence of its chars. -/
abbrev Str := List Char

/-- One byte of the frame buffer (`uint8_t`). -/
abbrev Byte := Fin 256

/-- The callbacks a Confirm release can invoke. -/
inductive Handler where
  | onContinueReading
  | onReaderOpen
  | onOpdsBrowserOpen
  | onFileTransferOpen
  | onSettingsOpen
  deriving DecidableEq, Repr

/-- The members of `HomeActivity` the code below reads or writes. -/
structure State where
  hasContinueReading : Bool
  hasOpdsUrl : Bool
  hasCoverImage : Bool
  coverRendered : Bool
  coverBufferStored : Bool
  /-- The member `uint8_t* coverBuffer`; `none` is `nullptr`. -/
  coverBuffer : Option (List Byte)
  selectorIndex : Int
  updateRequired : Bool
  lastBookTitle : Str
  lastBookAuthor : Str
  coverBmpPath : Str
  continueReadingProgress : Int
  bookSize : Int
  currentBookPosition : Int
  /-- Whether `renderingMutex` holds a semaphore handle. -/
  renderingMutex : Bool
  /-- Whether `displayTaskHandle` holds a task handle. -/
  displayTaskHandle : Bool
  deriving DecidableEq, Repr

/-- The edge-triggered button state `mappedInput` reports during one `loop()`. -/
structure MappedInput where
  pressedUp : Bool
  pressedLeft : Bool
  pressedDown : Bool
  pressedRight : Bool
  releasedConfirm : Bool
  deriving DecidableEq, Repr

/-! ## getMenuItemCount -/

/-- Source: `HomeActivity::getMenuItemCount`. -/
def getMenuItemCount (s : State) : Int :=
  let count : Int := 3
  let count := if s.hasContinueReading then count + 1 else count
  let count := if s.hasOpdsUrl then count + 1 else count
  count

/-! ## loop -/

/-- Source: `HomeActivity::loop`: the new state and the handlers invoked, in order. -/
def loop (s : State) (mappedInput : MappedInput) : State × List Handler :=
  let prevPressed := mappedInput.pressedUp || mappedInput.pressedLeft
  let nextPressed := mappedInput.pressedDown || mappedInput.pressedRight
  let menuCount := getMenuItemCount s
  if mappedInput.releasedConfirm then
    let idx : Int := 0
    let continueIdx : Int := if s.hasContinueReading then idx else -1
    let idx := if s.hasContinueReading then idx + 1 else idx
    let browseFilesIdx := idx
    let idx := idx + 1
    let opdsLibraryIdx : Int := if s.hasOpdsUrl then idx else -1
    let idx := if s.hasOpdsUrl then idx + 1 else idx
    let fileTransferIdx := idx
    let idx := idx + 1
    let settingsIdx := idx
    if s.selectorIndex = continueIdx then (s, [Handler.onContinueReading])
    else if s.selectorIndex = browseFilesIdx then (s, [Handler.onReaderOpen])
    else if s.selectorIndex = opdsLibraryIdx then (s, [Handler.onOpdsBrowserOpen])
    else if s.selectorIndex = fileTransferIdx then (s, [Handler.onFileTransferOpen])
    else if s.selectorIndex = settingsIdx then (s, [Handler.onSettingsOpen])
    else (s, [])
  else if prevPressed then
    ({ s with selectorIndex := (s.selectorIndex + menuCount - 1).tmod menuCount,
              updateRequired := true }, [])
  else if nextPressed then
    ({ s with selectorIndex := (s.selectorIndex + 1).tmod menuCount,
              updateRequired := true }, [])
  else (s, [])

/-- Runs `loop()` once per element of a sequence of button states. -/
def loopMany (s : State) : List MappedInput → State
  | [] => s
  | i :: is => loopMany (loop s i).1 is

/-! ## The menu of the specification -/

/-- The five menu entries the specification names. -/
inductive MenuEntry where
  | continueReading
  | browseFiles
  | opdsLibrary
  | fileTransfer
  | settings
  deriving DecidableEq, Repr

/-- The handler bound to each entry. -/
def MenuEntry.handler : MenuEntry → Handler
  | .continueReading => Handler.onContinueReading
  | .browseFiles => Handler.onReaderOpen
  | .opdsLibrary => Handler.onOpdsBrowserOpen
  | .fileTransfer => Handler.onFileTransferOpen
  | .settings => Handler.onSettingsOpen

/-- The filtered ordered menu, in the words of the specification:
Continue Reading (if available), Browse Files, Calibre/OPDS Library (if a URL
is configured), File Transfer, Settings. -/
def specMenu (hasContinueReading hasOpdsUrl : Bool) : List MenuEntry :=
  (if hasContinueReading then [MenuEntry.continueReading] else []) ++
  [MenuEntry.browseFiles] ++
  (if hasOpdsUrl then [MenuEntry.opdsLibrary] else []) ++
  [MenuEntry.fileTransfer, MenuEntry.settings]

/-- A button state with only a Confirm release. -/
def confirmOnly : MappedInput :=
  { pressedUp := false, pressedLeft := false, pressedDown := false,
    pressedRight := false, releasedConfirm := true }

/-- A button state with only an Up press (a Prev press). -/
def prevOnly : MappedInput :=
  { pressedUp := true, pressedLeft := false, pressedDown := false,
    pressedRight := false, releasedConfirm := false }

/-- A button state with only a Down press (a Next press). -/
def nextOnly : MappedInput :=
  { pressedUp := false, pressedLeft := false, pressedDown := true,
    pressedRight := false, releasedConfirm := false }

/-- A state with nothing loaded: the members as a fresh activity has them,
with the two feature flags given. -/
def blank (hasContinueReading hasOpdsUrl : Bool) : State :=
  { hasContinueReading := hasContinueReading, hasOpdsUrl := hasOpdsUrl,
    hasCoverImage := false, coverRendered := false, coverBufferStored := false,
    coverBuffer := none, selectorIndex := 0, updateRequired := false,
    lastBookTitle := [], lastBookAuthor := [], coverBmpPath := [],
    continueReadingProgress := 0, bookSize := 0, currentBookPosition := 0,
    renderingMutex := false, displayTaskHandle := false }

/-! ## Collaborators -/

/-- The font identifiers of `fontIds.h` that `render()` uses. -/
inductive FontId where
  | ui10
  | ui12
  | small
  deriving DecidableEq, Repr

/-- A call made on the renderer (`GfxRenderer`, and `ScreenComponents::drawBattery`,
which draws through it), with its arguments. -/
inductive GfxCall where
  | clearScreen
  | drawRoundedRect (x y width height radius : Int)
  | fillRoundedRect (x y width height radius : Int)
  | drawBitmap (bmpPath : Str) (x y maxWidth maxHeight : Int)
  | drawText (font : FontId) (x y : Int) (text : Str) (black : Bool)
  | drawRect (x y width height : Int)
  | fillRect (x y width height : Int)
  | drawButtonHints (font : FontId) (btn1 btn2 btn3 btn4 : Str)
  | drawBattery (left top : Int) (showPercentage : Bool)
  | displayBuffer
  deriving DecidableEq, Repr

/-- The four button labels `mappedInput.mapLabels` returns. -/
structure Labels where
  btn1 : Str
  btn2 : Str
  btn3 : Str
  btn4 : Str
  deriving DecidableEq, Repr

/-- The parts of the collaborators that stay fixed while the activity runs. -/
structure Env where
  /-- Source: `GfxRenderer::getBufferSize()`. -/
  bufferSize : Nat
  /-- Source: `renderer.getScreenWidth()`. -/
  screenWidth : Int
  /-- Source: `renderer.getScreenHeight()`. -/
  screenHeight : Int
  /-- Source: `renderer.getTextWidth(font, text)`. -/
  getTextWidth : FontId → Str → Int
  /-- Source: `renderer.getLineHeight(font)`. -/
  getLineHeight : FontId → Int
  /-- What a renderer call does to the bytes of the frame buffer. -/
  paint : GfxCall → List Byte → List Byte
  /-- Source: `mappedInput.mapLabels(back, confirm, previous, next)`. -/
  mapLabels : Str → Str → Str → Str → Labels
  /-- Source: `StringUtils::checkFileExtension(fileName, extension)`. -/
  checkFileExtension : Str → Str → Bool
  /-- Source: `StringUtils::utf8RemoveLastChar(str)`: the string it leaves in `str`. -/
  utf8RemoveLastChar : Str → Str
  /-- The value of `bookSize * continueReadingProgress / 100` (line 58), given
  `bookSize` and `continueReadingProgress`, as computed in the machine types
  that `HomeActivity.h` declares for these members. -/
  scalePercent : Int → Int → Int

/-- The renderer: its frame buffer (`getFrameBuffer()`, `none` is `nullptr`) and
the calls it has received, oldest first. -/
structure Gfx where
  frameBuffer : Option (List Byte)
  calls : List GfxCall
  deriving DecidableEq, Repr

/-- One renderer call: it is recorded and paints into the frame buffer. -/
def Gfx.call (E : Env) (g : Gfx) (c : GfxCall) : Gfx :=
  { frameBuffer := g.frameBuffer.map (E.paint c), calls := g.calls ++ [c] }

/-- What an `Epub` object reports after `load(false)` and `loadProgressFile()`. -/
structure EpubResult where
  title : Str
  author : Str
  currentProgress : Int
  bookSize : Int
  /-- The path `getThumbBmpPath()` gives when `generateThumbBmp()` succeeds. -/
  thumbBmp : Option Str
  deriving DecidableEq, Repr

/-- What an `Xtc` object reports. -/
structure XtcResult where
  loadOk : Bool
  title : Str
  /-- The path `getThumbBmpPath()` gives when `generateThumbBmp()` succeeds. -/
  thumbBmp : Option Str
  deriving DecidableEq, Repr

/-- What the collaborators answer during one `onEnter()`. -/
structure EnterWorld where
  /-- Source: `APP_STATE.openEpubPath`. -/
  openEpubPath : Str
  /-- Source: `SdMan.exists(APP_STATE.openEpubPath)`. -/
  pathExists : Bool
  /-- Source: `SETTINGS.opdsServerUrl`. -/
  opdsServerUrl : Str
  epub : EpubResult
  xtc : XtcResult
  /-- Whether `xTaskCreate` stored a task handle. -/
  taskCreated : Bool
  deriving DecidableEq, Repr

/-- What the collaborators answer during one `render()`. -/
structure RenderWorld where
  /-- Source: `SdMan.openFileForRead("HOME", coverBmpPath, file)`. -/
  openFileOk : Bool
  /-- Source: `bitmap.parseHeaders() == BmpReaderError::Ok`. -/
  parseHeadersOk : Bool
  /-- The block `malloc(bufferSize)` returns, with the bytes it happens to hold;
  `none` is `nullptr`. -/
  malloc : Option (List Byte)
  /-- Source: `battery.readPercentage()`. -/
  batteryPercentage : Nat
  /-- Source: `SETTINGS.hideBatteryPercentage == HIDE_ALWAYS`. -/
  hideBatteryAlways : Bool
  deriving DecidableEq, Repr

/-- A FreeRTOS call, or a call of one of the activity's own methods, as recorded
by `onExit()` and `displayTaskLoop()`. -/
inductive Event where
  | xSemaphoreTake
  | xSemaphoreGive
  | vSemaphoreDelete
  | vTaskDelete
  | vTaskDelay
  | render
  | freeCoverBuffer
  deriving DecidableEq, Repr

/-! ## String helpers (`std::string` members used by `onEnter`) -/

/-- Scans `s` from position `i`, remembering the last position holding `c`. -/
def findLastOfFrom (c : Char) : Str → Nat → Option Nat → Option Nat
  | [], _, found => found
  | x :: xs, i, found => findLastOfFrom c xs (i + 1) (if x = c then some i else found)

/-- Source: `std::string::find_last_of(c)`; `none` is `npos`. -/
def findLastOf (s : Str) (c : Char) : Option Nat :=
  findLastOfFrom c s 0 none

/-- Source: `std::string::substr(pos)`. -/
def substr (s : Str) (pos : Nat) : Str := s.drop pos

/-- Source: `std::string::resize(n)`: keeps the first `n` chars, padding with NUL chars
when `n` exceeds the length. -/
def resize (s : Str) (n : Nat) : Str :=
  s.take n ++ List.replicate (n - s.length) (Char.ofNat 0)

/-- Source: `std::to_string` of an `int`. -/
def toStr (n : Int) : Str := (toString n).toList

/-! ## onEnter -/

/-- Source: `HomeActivity::onEnter`.  The `size_t` differences `length() - 5` and
`length() - 4` are taken in `Nat`; they are exact whenever `checkFileExtension`
only accepts names at least as long as the extension. -/
def onEnter (E : Env) (w : EnterWorld) (s : State) : State :=
  let s := { s with renderingMutex := true }
  let s := { s with hasContinueReading := !w.openEpubPath.isEmpty && w.pathExists }
  let s := { s with hasOpdsUrl := decide (w.opdsServerUrl.length > 0) }
  let s :=
    if s.hasContinueReading then
      let s := { s with lastBookTitle := w.openEpubPath }
      let s :=
        match findLastOf s.lastBookTitle '/' with
        | some lastSlash => { s with lastBookTitle := substr s.lastBookTitle (lastSlash + 1) }
        | none => s
      if E.checkFileExtension s.lastBookTitle ".epub".toList then
        let s := { s with continueReadingProgress := w.epub.currentProgress }
        let s := { s with bookSize := w.epub.bookSize }
        let s := { s with
          currentBookPosition := E.scalePercent s.bookSize s.continueReadingProgress }
        let s := if !w.epub.title.isEmpty then { s with lastBookTitle := w.epub.title } else s
        let s := if !w.epub.author.isEmpty then { s with lastBookAuthor := w.epub.author } else s
        match w.epub.thumbBmp with
        | some thumbPath => { s with coverBmpPath := thumbPath, hasCoverImage := true }
        | none => s
      else if E.checkFileExtension s.lastBookTitle ".xtch".toList ||
              E.checkFileExtension s.lastBookTitle ".xtc".toList then
        let s :=
          if w.xtc.loadOk then
            let s := if !w.xtc.title.isEmpty then { s with lastBookTitle := w.xtc.title } else s
            match w.xtc.thumbBmp with
            | some thumbPath => { s with coverBmpPath := thumbPath, hasCoverImage := true }
            | none => s
          else s
        if E.checkFileExtension s.lastBookTitle ".xtch".toList then
          { s with lastBookTitle := resize s.lastBookTitle (s.lastBookTitle.length - 5) }
        else if E.checkFileExtension s.lastBookTitle ".xtc".toList then
          { s with lastBookTitle := resize s.lastBookTitle (s.lastBookTitle.length - 4) }
        else s
      else s
    else s
  let s := { s with selectorIndex := 0 }
  let s := { s with updateRequired := true }
  { s with displayTaskHandle := s.displayTaskHandle || w.taskCreated }

/-! ## The cover cache: storeCoverBuffer, restoreCoverBuffer, freeCoverBuffer -/

/-- Source: `memcpy(dst, src, n)`: the bytes of `dst` afterwards. -/
def memcpy (dst src : List Byte) (n : Nat) : List Byte :=
  src.take n ++ dst.drop n

/-- Source: `HomeActivity::freeCoverBuffer`. -/
def freeCoverBuffer (s : State) : State :=
  let s := if s.coverBuffer.isSome then { s with coverBuffer := none } else s
  { s with coverBufferStored := false }

/-- Source: `HomeActivity::storeCoverBuffer`: the value returned and the new state.
`malloc` is the outcome of the `malloc(bufferSize)` the call makes. -/
def storeCoverBuffer (E : Env) (malloc : Option (List Byte)) (s : State) (g : Gfx) :
    Bool × State :=
  match g.frameBuffer with
  | none => (false, s)
  | some frameBuffer =>
    let s := freeCoverBuffer s
    let bufferSize := E.bufferSize
    let s := { s with coverBuffer := malloc }
    match s.coverBuffer with
    | none => (false, s)
    | some block =>
      (true, { s with coverBuffer := some (memcpy block frameBuffer bufferSize) })

/-- Source: `HomeActivity::restoreCoverBuffer`: the value returned and the renderer
afterwards. -/
def restoreCoverBuffer (E : Env) (s : State) (g : Gfx) : Bool × Gfx :=
  match s.coverBuffer with
  | none => (false, g)
  | some coverBuffer =>
    match g.frameBuffer with
    | none => (false, g)
    | some frameBuffer =>
      let bufferSize := E.bufferSize
      (true, { g with frameBuffer := some (memcpy frameBuffer coverBuffer bufferSize) })

/-! ## onExit -/

/-- Source: `HomeActivity::onExit`: the new state and the calls made, in order. -/
def onExit (s : State) : State × List Event :=
  let ev := [Event.xSemaphoreTake]
  let (s, ev) :=
    if s.displayTaskHandle then
      ({ s with displayTaskHandle := false }, ev ++ [Event.vTaskDelete])
    else (s, ev)
  let ev := ev ++ [Event.vSemaphoreDelete]
  let s := { s with renderingMutex := false }
  (freeCoverBuffer s, ev ++ [Event.freeCoverBuffer])

/-! ## render -/

/-- The layout values `render()` computes from the screen size. -/
structure Layout where
  pageWidth : Int
  pageHeight : Int
  cornerRadius : Int
  margin : Int
  sideMargin : Int
  bottomMargin : Int
  bookCardX : Int
  bookCardWidth : Int
  bookCardY : Int
  bookCardHeight : Int
  bookCardCornerRadius : Int
  bookCardInnerMargin : Int
  bookWidth : Int
  bookHeight : Int
  deriving DecidableEq, Repr

/-- Lines 220-239 of `render()`. -/
def layout (E : Env) : Layout :=
  let pageWidth := E.screenWidth
  let pageHeight := E.screenHeight
  let cornerRadius : Int := 5
  let margin : Int := 50
  let sideMargin : Int := 20
  let bottomMargin : Int := 60
  let bookCardX := sideMargin
  let bookCardWidth := pageWidth - 2 * sideMargin
  let bookCardY := margin
  let bookCardHeight := pageHeight.tdiv 3
  let bookCardCornerRadius : Int := 5
  let bookCardInnerMargin : Int := 25
  let bookWidth := pageWidth.tdiv 3
  let bookHeight := bookCardHeight - 2 * bookCardInnerMargin
  { pageWidth := pageWidth, pageHeight := pageHeight, cornerRadius := cornerRadius,
    margin := margin, sideMargin := sideMargin, bottomMargin := bottomMargin,
    bookCardX := bookCardX, bookCardWidth := bookCardWidth, bookCardY := bookCardY,
    bookCardHeight := bookCardHeight, bookCardCornerRadius := bookCardCornerRadius,
    bookCardInnerMargin := bookCardInnerMargin, bookWidth := bookWidth,
    bookHeight := bookHeight }

/-- Lines 214-218 and 243: restore the stored cover buffer or clear the screen,
then draw the book card. -/
def renderBackground (E : Env) (s : State) (g : Gfx) : Gfx :=
  let L := layout E
  let restored := if s.coverBufferStored then restoreCoverBuffer E s g else (false, g)
  let bufferRestored := restored.1
  let g := restored.2
  let g := if !bufferRestored then g.call E GfxCall.clearScreen else g
  g.call E (GfxCall.drawRoundedRect L.bookCardX L.bookCardY L.bookCardWidth L.bookCardHeight
    L.bookCardCornerRadius)

/-- The condition of line 246, under which the cover and the card text are drawn. -/
def showsBook (s : State) : Bool :=
  s.hasContinueReading && s.hasCoverImage && !s.coverBmpPath.isEmpty

/-- Lines 249-269: the first-time load and draw of the cover, and the snapshot. -/
def renderCover (E : Env) (w : RenderWorld) (s : State) (g : Gfx) : State × Gfx :=
  let L := layout E
  if !s.coverRendered then
    if w.openFileOk then
      if w.parseHeadersOk then
        let coverX := L.bookCardX + L.bookCardInnerMargin
        let coverY := L.bookCardY + L.bookCardInnerMargin
        let g := g.call E (GfxCall.drawBitmap s.coverBmpPath coverX coverY L.bookWidth L.bookHeight)
        let stored := storeCoverBuffer E w.malloc s g
        let s := { stored.2 with coverBufferStored := stored.1 }
        let s := { s with coverRendered := true }
        (s, g)
      else (s, g)
    else (s, g)
  else (s, g)

/-- The bound of the loop of line 280:
`bookCardWidth - bookWidth - 2 * bookCardInnerMargin - ellipsisWidth`. -/
def availableTitleWidth (E : Env) : Int :=
  let L := layout E
  let ellipsisWidth := E.getTextWidth FontId.ui12 "...".toList
  L.bookCardWidth - L.bookWidth - 2 * L.bookCardInnerMargin - ellipsisWidth

/-- The `while` loop of lines 280-284, run for at most `fuel` tests of its
condition: the title and the `truncated` flag it ends with, or `none` when the
loop is still running after `fuel` tests. -/
def truncateLoop (E : Env) : Nat → Str → Bool → Option (Str × Bool)
  | 0, _, _ => none
  | fuel + 1, lastBookTitle, truncated =>
    if E.getTextWidth FontId.ui12 lastBookTitle > availableTitleWidth E then
      truncateLoop E fuel (E.utf8RemoveLastChar lastBookTitle) true
    else some (lastBookTitle, truncated)

/-- Lines 276-288: the truncation of `lastBookTitle`, with the ellipsis. -/
def truncateTitle (E : Env) (fuel : Nat) (s : State) : Option State :=
  match truncateLoop E fuel s.lastBookTitle false with
  | none => none
  | some (title, truncated) =>
    some { s with lastBookTitle := if truncated then title ++ "...".toList else title }

/-- Lines 272-274 and 290-314: title, author, progress bar and position. -/
def renderCardText (E : Env) (s : State) (g : Gfx) : Gfx :=
  let L := layout E
  let lineHeight := E.getLineHeight FontId.ui12
  let textX := L.bookCardX + L.bookCardInnerMargin + L.bookWidth
  let textY := L.bookCardY + L.bookCardInnerMargin
  let g := g.call E (GfxCall.drawText FontId.ui12 textX textY s.lastBookTitle true)
  let g := g.call E (GfxCall.drawText FontId.ui10 textX (textY + lineHeight + 5) s.lastBookAuthor true)
  let progressBarHeight : Int := 6
  let progressBarX := L.bookCardX + L.bookCardInnerMargin + L.bookWidth
  let progressBarEndX := L.bookCardX + L.bookCardWidth - L.bookCardInnerMargin
  let progressBarY := L.bookCardY + L.bookCardHeight - L.bookCardInnerMargin - progressBarHeight
  let progressBarWidth := progressBarEndX - progressBarX
  let filledWidth := (progressBarWidth * s.continueReadingProgress).tdiv 100
  let g := g.call E (GfxCall.drawRect progressBarX progressBarY progressBarWidth (progressBarHeight - 2))
  let g := g.call E (GfxCall.fillRect (progressBarX - 1) (progressBarY - 1) filledWidth progressBarHeight)
  let progressText := toStr s.continueReadingProgress ++ "%".toList
  let progressTextWidth := E.getTextWidth FontId.ui10 progressText
  let progressTextX := L.bookCardX + L.bookCardWidth - L.bookCardInnerMargin - progressTextWidth
  let progressTextY := L.bookCardY + L.bookCardHeight - L.bookCardInnerMargin -
    E.getLineHeight FontId.ui10 - progressBarHeight - 4
  let g := g.call E (GfxCall.drawText FontId.ui10 progressTextX progressTextY progressText true)
  let bookPositionText := toStr s.currentBookPosition ++ " / ".toList ++ toStr s.bookSize
  let bookPositionTextX := L.bookCardX + L.bookCardInnerMargin + L.bookWidth
  let bookPositionTextY := progressTextY
  g.call E (GfxCall.drawText FontId.ui10 bookPositionTextX bookPositionTextY bookPositionText true)

/-- Lines 319-323: the labels of the menu tiles, top to bottom. -/
def menuItems (s : State) : List Str :=
  let menuItems : List Str :=
    ["Continue Reading".toList, "Browse Files".toList, "File Transfer".toList, "Settings".toList]
  if s.hasOpdsUrl then
    menuItems.take 2 ++ ["Calibre Library".toList] ++ menuItems.drop 2
  else menuItems

/-- The body of the loop of lines 338-358 for the tiles from index `i` on. -/
def drawTiles (E : Env) (s : State) (menuStartY : Int) : Nat → List Str → Gfx → Gfx
  | _, [], g => g
  | i, label :: rest, g =>
    let L := layout E
    let menuTileWidth := L.pageWidth - 2 * L.sideMargin
    let menuTileHeight : Int := 55
    let menuSpacing : Int := 8
    let overallIndex : Int := (i : Int)
    let tileX := L.sideMargin
    let tileY := menuStartY + (i : Int) * (menuTileHeight + menuSpacing)
    let selected := decide (s.selectorIndex = overallIndex)
    let g :=
      if selected then
        g.call E (GfxCall.fillRoundedRect tileX tileY menuTileWidth menuTileHeight L.cornerRadius)
      else
        g.call E (GfxCall.drawRoundedRect tileX tileY menuTileWidth menuTileHeight L.cornerRadius)
    let textWidth := E.getTextWidth FontId.ui10 label
    let textX := tileX + (menuTileWidth - textWidth).tdiv 2
    let lineHeight := E.getLineHeight FontId.ui10
    let textY := tileY + (menuTileHeight - lineHeight).tdiv 2
    let g := g.call E (GfxCall.drawText FontId.ui10 textX textY label (!selected))
    drawTiles E s menuStartY (i + 1) rest g

/-- Lines 317-358: the menu tiles. -/
def renderMenu (E : Env) (s : State) (g : Gfx) : Gfx :=
  let L := layout E
  let menuItems := menuItems s
  let menuTileHeight : Int := 55
  let menuSpacing : Int := 8
  let totalMenuHeight :=
    (menuItems.length : Int) * menuTileHeight + ((menuItems.length : Int) - 1) * menuSpacing
  let menuStartY := L.bookCardY + L.bookCardHeight + 15
  let maxMenuStartY := L.pageHeight - L.bottomMargin - totalMenuHeight - L.margin
  let menuStartY := if menuStartY > maxMenuStartY then maxMenuStartY else menuStartY
  drawTiles E s menuStartY 0 menuItems g

/-- Lines 360-371: button hints, battery, and the flush to the display. -/
def renderFooter (E : Env) (w : RenderWorld) (g : Gfx) : Gfx :=
  let L := layout E
  let labels := E.mapLabels [] "Confirm".toList "Up".toList "Down".toList
  let g := g.call E (GfxCall.drawButtonHints FontId.ui10 labels.btn1 labels.btn2 labels.btn3 labels.btn4)
  let showBatteryPercentage := !w.hideBatteryAlways
  let percentage := w.batteryPercentage
  let percentageText := if showBatteryPercentage then toStr percentage ++ "%".toList else []
  let batteryX := L.pageWidth - L.sideMargin * 2 - E.getTextWidth FontId.small percentageText
  let g := g.call E (GfxCall.drawBattery batteryX 10 showBatteryPercentage)
  g.call E GfxCall.displayBuffer

/-- Source: `HomeActivity::render`, with at most `fuel` tests of the condition of the
title-truncation loop; `none` when that loop is still running after them. -/
def render (E : Env) (w : RenderWorld) (fuel : Nat) (s : State) (g : Gfx) :
    Option (State × Gfx) :=
  let g := renderBackground E s g
  if showsBook s then
    let covered := renderCover E w s g
    match truncateTitle E fuel covered.1 with
    | none => none
    | some s =>
      let g := renderCardText E s covered.2
      let g := renderMenu E s g
      some (s, renderFooter E w g)
  else
    let g := renderMenu E s g
    some (s, renderFooter E w g)

/-! ## displayTaskLoop -/

/-- One iteration of the `while (true)` of `HomeActivity::displayTaskLoop`: the
new state, the renderer, and the calls made, in order; `none` when `render()`
does not return within `fuel`. -/
def displayTaskLoop (E : Env) (w : RenderWorld) (fuel : Nat) (s : State) (g : Gfx) :
    Option (State × Gfx × List Event) :=
  if s.updateRequired then
    let s := { s with updateRequired := false }
    match render E w fuel s g with
    | none => none
    | some (s, g) =>
      some (s, g, [Event.xSemaphoreTake, Event.render, Event.xSemaphoreGive, Event.vTaskDelay])
  else some (s, g, [Event.vTaskDelay])

/-! ## Contracts of the collaborators, and concrete collaborators -/

/-- The contract of `StringUtils::utf8RemoveLastChar` the title loop relies on:
from a non-empty string it leaves a strictly shorter prefix. -/
def RemovesLastChar (E : Env) : Prop :=
  ∀ t : Str, t ≠ [] →
    E.utf8RemoveLastChar t <+: t ∧ (E.utf8RemoveLastChar t).length < t.length

/-- The empty title is no wider than the width available to the title. -/
def EmptyTitleFits (E : Env) : Prop :=
  E.getTextWidth FontId.ui12 [] ≤ availableTitleWidth E

/-- Modelled from the spec: `StringUtils::checkFileExtension`, whose code is in
`util/StringUtils`, outside the sources at hand; the specification only speaks of
a file's "extension".  Here: the file name ends with the extension, ASCII case
ignored. -/
def endsWithExtension (fileName extension : Str) : Bool :=
  decide (extension.length ≤ fileName.length) &&
    ((fileName.drop (fileName.length - extension.length)).map Char.toLower ==
      extension.map Char.toLower)

/-- A concrete environment: a 480 x 800 screen, a frame buffer of four bytes, a
font ten pixels wide per char, a renderer that whitens the buffer on
`clearScreen` and blackens its first byte on `drawBitmap`, and the book position
computed in an unsigned 32-bit type. -/
def sampleEnv : Env :=
  { bufferSize := 4
    screenWidth := 480
    screenHeight := 800
    getTextWidth := fun _ text => 10 * (text.length : Int)
    getLineHeight := fun _ => 20
    paint := fun c fb =>
      match c with
      | GfxCall.clearScreen => fb.map (fun _ => (255 : Byte))
      | GfxCall.drawBitmap _ _ _ _ _ => fb.set 0 (0 : Byte)
      | _ => fb
    mapLabels := fun b1 b2 b3 b4 => { btn1 := b1, btn2 := b2, btn3 := b3, btn4 := b4 }
    checkFileExtension := endsWithExtension
    utf8RemoveLastChar := List.dropLast
    scalePercent := fun bookSize progress => ((bookSize * progress) % 4294967296) / 100 }

/-- A renderer with a four-byte frame buffer holding `bytes` and no call yet. -/
def gfxOf (bytes : List Byte) : Gfx :=
  { frameBuffer := some bytes, calls := [] }

/-- A `render()` during which the cover file opens and parses and `malloc`
succeeds. -/
def renderOk : RenderWorld :=
  { openFileOk := true, parseHeadersOk := true, malloc := some [0, 0, 0, 0],
    batteryPercentage := 80, hideBatteryAlways := false }

/-- A `render()` during which the cover file opens and parses and `malloc`
returns `nullptr`. -/
def renderNoMemory : RenderWorld :=
  { renderOk with malloc := none }

/-- Whether `loop()` handles the button state as a Prev or a Next press: Confirm
is not released, and Up, Left, Down or Right is pressed. -/
def isSelectionPress (inp : MappedInput) : Bool :=
  !inp.releasedConfirm &&
    ((inp.pressedUp || inp.pressedLeft) || (inp.pressedDown || inp.pressedRight))

/-- An `onEnter()` for the book `/books/novel.epub`, present on the card, whose
metadata extraction fails: empty title and author, no thumbnail.  No OPDS URL. -/
def enterEpubNoMetadata : EnterWorld :=
  { openEpubPath := "/books/novel.epub".toList
    pathExists := true
    opdsServerUrl := []
    epub := { title := [], author := [], currentProgress := 0, bookSize := 0, thumbBmp := none }
    xtc := { loadOk := false, title := [], thumbBmp := none }
    taskCreated := true }

/-- The same for `/books/novel.xtc`. -/
def enterXtcNoMetadata : EnterWorld :=
  { enterEpubNoMetadata with openEpubPath := "/books/novel.xtc".toList }

/-- The same for `/books/novel.xtch`. -/
def enterXtchNoMetadata : EnterWorld :=
  { enterEpubNoMetadata with openEpubPath := "/books/novel.xtch".toList }

/-! ## Reading the renderer's calls -/

/-- Whether a renderer call draws a bitmap (the cover). -/
def isDrawBitmap : GfxCall → Bool
  | GfxCall.drawBitmap _ _ _ _ _ => true
  | _ => false

/-- The texts a list of renderer calls draws inverted in `UI_10_FONT_ID`: the
labels of the tiles drawn as selected. -/
def highlightedLabels (calls : List GfxCall) : List Str :=
  calls.filterMap fun c =>
    match c with
    | GfxCall.drawText FontId.ui10 _ _ text false => some text
    | _ => none

/-- The handler of the entry a tile label names. -/
def handlerOfLabel (label : Str) : Option Handler :=
  if label = "Continue Reading".toList then some Handler.onContinueReading
  else if label = "Browse Files".toList then some Handler.onReaderOpen
  else if label = "Calibre Library".toList then some Handler.onOpdsBrowserOpen
  else if label = "File Transfer".toList then some Handler.onFileTransferOpen
  else if label = "Settings".toList then some Handler.onSettingsOpen
  else none

/-- No book to continue, an OPDS URL configured, the selection on index 2. -/
def noBookWithOpdsAtTwo : State :=
  { blank false true with selectorIndex := 2 }

/-- A book to continue with a cover thumbnail, as `onEnter()` leaves the
members when the thumbnail was generated; nothing rendered yet. -/
def bookWithCover : State :=
  { blank true false with
    hasCoverImage := true
    coverBmpPath := "/.crosspoint/thumb.bmp".toList
    lastBookTitle := "Novel".toList
    lastBookAuthor := "Author".toList
    updateRequired := true
    renderingMutex := true
    displayTaskHandle := true }

/-- The first `render()` of `bookWithCover`, on a white frame buffer, during
which `malloc` returns `nullptr`. -/
def firstRenderNoMemory : Option (State × Gfx) :=
  render sampleEnv renderNoMemory 10 bookWithCover (gfxOf [255, 255, 255, 255])

/-- The `render()` after `firstRenderNoMemory`, during which the cover file opens
and parses and `malloc` would succeed; the record of calls starts afresh. -/
def secondRenderAfterNoMemory : Option (State × Gfx) :=
  match firstRenderNoMemory with
  | none => none
  | some (s, g) => render sampleEnv renderOk 10 s { g with calls := [] }

/-- The file name of a path as `onEnter()` computes it (lines 45-49): what
follows the last `/`, or the whole path when it has none. -/
def fileNameOf (path : Str) : Str :=
  match findLastOf path '/' with
  | some lastSlash => substr path (lastSlash + 1)
  | none => path

/-! ## Theorems -/

theorem getMenuItemCount_eq (s : State) :
    getMenuItemCount s =
      3 + (if s.hasContinueReading then 1 else 0) + (if s.hasOpdsUrl then 1 else 0) := by
  unfold getMenuItemCount
  cases s.hasContinueReading <;> cases s.hasOpdsUrl <;> simp

theorem getMenuItemCount_eq_length (s : State) :
    getMenuItemCount s = ((specMenu s.hasContinueReading s.hasOpdsUrl).length : Int) := by
  unfold getMenuItemCount specMenu
  cases s.hasContinueReading <;> cases s.hasOpdsUrl <;> simp

/-- C1: for each of the four flag combinations and each selectorIndex in
[0, getMenuItemCount()), a Confirm release in loop() invokes exactly one handler,
the handler of the entry at position selectorIndex of the filtered ordered menu
(and the state is left as it was). -/
theorem confirm_dispatches_filtered_entry (s : State) (inp : MappedInput)
    (hconfirm : inp.releasedConfirm = true)
    (hlo : 0 ≤ s.selectorIndex) (hhi : s.selectorIndex < getMenuItemCount s) :
    ∃ e : MenuEntry,
      (specMenu s.hasContinueReading s.hasOpdsUrl)[s.selectorIndex.toNat]? = some e ∧
      (loop s inp).2 = [e.handler] ∧ (loop s inp).1 = s := by
  obtain ⟨cr, opds, a3, a4, a5, a6, i, a8, a9, a10, a11, a12, a13, a14, a15, a16⟩ := s
  simp only [getMenuItemCount] at hhi
  simp only at hlo
  cases cr <;> cases opds <;> simp at hhi <;> interval_cases i <;>
    simp [loop, hconfirm, specMenu, MenuEntry.handler]

theorem confirm_dispatches_filtered_entry_witness :
    (0 ≤ ({ blank true true with selectorIndex := 2 } : State).selectorIndex ∧
      ({ blank true true with selectorIndex := 2 } : State).selectorIndex <
        getMenuItemCount { blank true true with selectorIndex := 2 }) ∧
    ∃ e : MenuEntry,
      (specMenu true true)[({ blank true true with selectorIndex := 2 } : State).selectorIndex.toNat]?
        = some e ∧
      (loop { blank true true with selectorIndex := 2 } confirmOnly).2 = [e.handler] ∧
      (loop { blank true true with selectorIndex := 2 } confirmOnly).1
        = { blank true true with selectorIndex := 2 } :=
  ⟨by decide,
   confirm_dispatches_filtered_entry { blank true true with selectorIndex := 2 } confirmOnly
    rfl (by decide) (by decide)⟩

/-! ### Selection arithmetic -/

theorem loop_hasContinueReading (s : State) (inp : MappedInput) :
    (loop s inp).1.hasContinueReading = s.hasContinueReading := by
  unfold loop
  simp only
  split_ifs <;> rfl

theorem loop_hasOpdsUrl (s : State) (inp : MappedInput) :
    (loop s inp).1.hasOpdsUrl = s.hasOpdsUrl := by
  unfold loop
  simp only
  split_ifs <;> rfl

theorem getMenuItemCount_congr (s t : State)
    (h1 : t.hasContinueReading = s.hasContinueReading) (h2 : t.hasOpdsUrl = s.hasOpdsUrl) :
    getMenuItemCount t = getMenuItemCount s := by
  simp [getMenuItemCount, h1, h2]

theorem getMenuItemCount_loop (s : State) (inp : MappedInput) :
    getMenuItemCount (loop s inp).1 = getMenuItemCount s :=
  getMenuItemCount_congr s _ (loop_hasContinueReading s inp) (loop_hasOpdsUrl s inp)

theorem getMenuItemCount_pos (s : State) : 3 ≤ getMenuItemCount s := by
  rw [getMenuItemCount_eq]
  cases s.hasContinueReading <;> cases s.hasOpdsUrl <;> simp

theorem prev_index (i n : Int) (hi : 0 ≤ i) (hin : i < n) :
    (i + n - 1).tmod n = (i - 1) % n := by
  have hn : 0 < n := by omega
  rw [Int.tmod_eq_emod (by omega) (by omega)]
  have : i + n - 1 = (i - 1) + n := by ring
  rw [this, Int.add_emod_self]

theorem next_index (i n : Int) (hi : 0 ≤ i) (hin : i < n) :
    (i + 1).tmod n = (i + 1) % n := by
  rw [Int.tmod_eq_emod (by omega) (by omega)]

theorem loop_in_range (s : State) (inp : MappedInput)
    (hlo : 0 ≤ s.selectorIndex) (hhi : s.selectorIndex < getMenuItemCount s) :
    0 ≤ (loop s inp).1.selectorIndex ∧
      (loop s inp).1.selectorIndex < getMenuItemCount (loop s inp).1 := by
  rw [getMenuItemCount_loop]
  have hn : 0 < getMenuItemCount s := by have := getMenuItemCount_pos s; omega
  unfold loop
  simp only
  split_ifs
  all_goals first
    | exact ⟨hlo, hhi⟩
    | (simp only
       first
        | (rw [prev_index _ _ hlo hhi]
           exact ⟨Int.emod_nonneg _ (by omega), Int.emod_lt_of_pos _ hn⟩)
        | (rw [next_index _ _ hlo hhi]
           exact ⟨Int.emod_nonneg _ (by omega), Int.emod_lt_of_pos _ hn⟩))

theorem loopMany_in_range (inputs : List MappedInput) (s : State)
    (hlo : 0 ≤ s.selectorIndex) (hhi : s.selectorIndex < getMenuItemCount s) :
    0 ≤ (loopMany s inputs).selectorIndex ∧
      (loopMany s inputs).selectorIndex < getMenuItemCount (loopMany s inputs) := by
  induction inputs generalizing s with
  | nil => exact ⟨hlo, hhi⟩
  | cons i rest ih =>
    have h := loop_in_range s i hlo hhi
    exact ih (loop s i).1 h.1 h.2

theorem onEnter_selectorIndex (E : Env) (w : EnterWorld) (s : State) :
    (onEnter E w s).selectorIndex = 0 := by
  simp [onEnter]

theorem onEnter_updateRequired (E : Env) (w : EnterWorld) (s : State) :
    (onEnter E w s).updateRequired = true := by
  simp [onEnter]

/-- C3: from the selectorIndex = 0 that onEnter() sets, after any finite sequence
of loop() calls (any button states, so any Prev/Next presses) selectorIndex is in
[0, getMenuItemCount()); on an index in range a Prev press gives (i - 1) mod
itemCount and a Next press (i + 1) mod itemCount; with itemCount = 5, Prev from 0
gives 4 and Next from 4 gives 0. -/
theorem selection_stays_in_range_and_wraps (E : Env) (w : EnterWorld) (s : State)
    (inputs : List MappedInput) :
    (0 ≤ (loopMany (onEnter E w s) inputs).selectorIndex ∧
      (loopMany (onEnter E w s) inputs).selectorIndex <
        getMenuItemCount (loopMany (onEnter E w s) inputs)) ∧
    (∀ (t : State) (inp : MappedInput),
      0 ≤ t.selectorIndex → t.selectorIndex < getMenuItemCount t →
      inp.releasedConfirm = false → (inp.pressedUp || inp.pressedLeft) = true →
      (loop t inp).1.selectorIndex = (t.selectorIndex - 1) % getMenuItemCount t) ∧
    (∀ (t : State) (inp : MappedInput),
      0 ≤ t.selectorIndex → t.selectorIndex < getMenuItemCount t →
      inp.releasedConfirm = false → (inp.pressedUp || inp.pressedLeft) = false →
      (inp.pressedDown || inp.pressedRight) = true →
      (loop t inp).1.selectorIndex = (t.selectorIndex + 1) % getMenuItemCount t) ∧
    (getMenuItemCount (blank true true) = 5 ∧
      (loop { blank true true with selectorIndex := 0 } prevOnly).1.selectorIndex = 4 ∧
      (loop { blank true true with selectorIndex := 4 } nextOnly).1.selectorIndex = 0) := by
  refine ⟨?_, ?_, ?_, ?_⟩
  · apply loopMany_in_range
    · rw [onEnter_selectorIndex]
    · rw [onEnter_selectorIndex]
      have := getMenuItemCount_pos (onEnter E w s)
      omega
  · intro t inp hlo hhi hc hp
    simp only [loop, hc, hp, Bool.false_eq_true, if_false, if_true]
    exact prev_index _ _ hlo hhi
  · intro t inp hlo hhi hc hp hnx
    simp only [loop, hc, hp, hnx, Bool.false_eq_true, if_false, if_true]
    exact next_index _ _ hlo hhi
  · decide

/-! ### The cover cache -/

theorem memcpy_full (dst src : List Byte) (n : Nat)
    (hsrc : src.length = n) (hdst : dst.length = n) : memcpy dst src n = src := by
  unfold memcpy
  rw [List.take_of_length_le (by omega), List.drop_of_length_le (by omega), List.append_nil]

/-- C4: if storeCoverBuffer() returns true while the frame buffer holds B, then
after any overwrite of the frame buffer (and any change of the other members, the
stored buffer kept), restoreCoverBuffer() returns true and the frame buffer is B
again, byte for byte.  The frame buffer and a block from malloc(bufferSize) have
bufferSize bytes. -/
theorem store_then_restore_roundtrip (E : Env) (malloc : Option (List Byte))
    (s s' : State) (g g' : Gfx) (B B' : List Byte)
    (hfb : g.frameBuffer = some B) (hB : B.length = E.bufferSize)
    (hblock : ∀ block, malloc = some block → block.length = E.bufferSize)
    (hstore : (storeCoverBuffer E malloc s g).1 = true)
    (hkept : s'.coverBuffer = (storeCoverBuffer E malloc s g).2.coverBuffer)
    (hfb' : g'.frameBuffer = some B') (hB' : B'.length = E.bufferSize) :
    (restoreCoverBuffer E s' g').1 = true ∧
      (restoreCoverBuffer E s' g').2.frameBuffer = some B := by
  cases malloc with
  | none => simp [storeCoverBuffer, hfb] at hstore
  | some block =>
    have hlen := hblock block rfl
    have hcb : s'.coverBuffer = some B := by
      rw [hkept]
      simp [storeCoverBuffer, hfb, memcpy_full block B E.bufferSize hB hlen]
    simp [restoreCoverBuffer, hcb, hfb', memcpy_full B' B E.bufferSize hB hB']

theorem store_then_restore_roundtrip_witness :
    ((gfxOf [1, 2, 3, 4]).frameBuffer = some [1, 2, 3, 4] ∧
      ([1, 2, 3, 4] : List Byte).length = sampleEnv.bufferSize ∧
      (storeCoverBuffer sampleEnv (some [0, 0, 0, 0]) (blank true false) (gfxOf [1, 2, 3, 4])).1
        = true) ∧
    (restoreCoverBuffer sampleEnv
        { (storeCoverBuffer sampleEnv (some [0, 0, 0, 0]) (blank true false)
            (gfxOf [1, 2, 3, 4])).2 with coverBufferStored := true, selectorIndex := 1 }
        (gfxOf [9, 9, 9, 9])).1 = true ∧
      (restoreCoverBuffer sampleEnv
        { (storeCoverBuffer sampleEnv (some [0, 0, 0, 0]) (blank true false)
            (gfxOf [1, 2, 3, 4])).2 with coverBufferStored := true, selectorIndex := 1 }
        (gfxOf [9, 9, 9, 9])).2.frameBuffer = some [1, 2, 3, 4] :=
  ⟨⟨rfl, rfl, rfl⟩,
   store_then_restore_roundtrip sampleEnv (some [0, 0, 0, 0]) (blank true false)
    { (storeCoverBuffer sampleEnv (some [0, 0, 0, 0]) (blank true false)
        (gfxOf [1, 2, 3, 4])).2 with coverBufferStored := true, selectorIndex := 1 }
    (gfxOf [1, 2, 3, 4]) (gfxOf [9, 9, 9, 9]) [1, 2, 3, 4] [9, 9, 9, 9]
    rfl rfl (by intro block h; cases h; rfl) rfl rfl rfl rfl⟩

/-- C5: restoreCoverBuffer() returns true exactly when a stored buffer exists
and the frame buffer is available; when it returns false the renderer (and so the
frame buffer) is as before; after freeCoverBuffer() it returns false and changes
nothing; freeCoverBuffer() twice leaves the state of freeCoverBuffer() once: no
buffer and coverBufferStored = false. -/
theorem restore_true_iff_snapshot_and_free_idempotent (E : Env) (s : State) (g : Gfx) :
    ((restoreCoverBuffer E s g).1 = true ↔
      (s.coverBuffer.isSome = true ∧ g.frameBuffer.isSome = true)) ∧
    ((restoreCoverBuffer E s g).1 = false → (restoreCoverBuffer E s g).2 = g) ∧
    restoreCoverBuffer E (freeCoverBuffer s) g = (false, g) ∧
    freeCoverBuffer (freeCoverBuffer s) = freeCoverBuffer s ∧
    (freeCoverBuffer s).coverBuffer = none ∧
    (freeCoverBuffer s).coverBufferStored = false := by
  have hnone : (freeCoverBuffer s).coverBuffer = none := by
    unfold freeCoverBuffer
    cases h : s.coverBuffer <;> simp [h]
  refine ⟨?_, ?_, ?_, ?_, hnone, ?_⟩
  · unfold restoreCoverBuffer
    cases s.coverBuffer <;> cases g.frameBuffer <;> simp
  · unfold restoreCoverBuffer
    cases s.coverBuffer <;> cases g.frameBuffer <;> simp
  · simp [restoreCoverBuffer, hnone]
  · unfold freeCoverBuffer
    cases h : s.coverBuffer <;> simp [h]
  · simp [freeCoverBuffer]

/-! ### The title-truncation loop -/

theorem truncateLoop_spec (E : Env) (hrm : RemovesLastChar E) (hfit : EmptyTitleFits E) :
    ∀ (fuel : Nat) (title : Str) (tr : Bool), title.length < fuel →
      ∃ (t : Str) (tr' : Bool), truncateLoop E fuel title tr = some (t, tr') ∧
        t <+: title ∧
        E.getTextWidth FontId.ui12 t ≤ availableTitleWidth E ∧
        (tr' = true ↔ (tr = true ∨ t.length < title.length)) := by
  intro fuel
  induction fuel with
  | zero => intro title tr h; omega
  | succ fuel ih =>
    intro title tr hlen
    by_cases hw : E.getTextWidth FontId.ui12 title > availableTitleWidth E
    · have hne : title ≠ [] := by
        intro h0
        rw [h0] at hw
        unfold EmptyTitleFits at hfit
        omega
      obtain ⟨hpre, hshort⟩ := hrm title hne
      obtain ⟨t, tr', hrun, htpre, htw, htr⟩ :=
        ih (E.utf8RemoveLastChar title) true (by omega)
      refine ⟨t, tr', ?_, htpre.trans hpre, htw, ?_⟩
      · simp only [truncateLoop, hw, if_true]
        exact hrun
      · have hle := htpre.length_le
        constructor
        · intro _
          right
          omega
        · intro _
          exact htr.mpr (Or.inl rfl)
    · refine ⟨title, tr, ?_, List.prefix_refl title, by omega, ?_⟩
      · simp only [truncateLoop, hw, if_false]
      · simp

theorem availableTitleWidth_eq (E : Env) :
    availableTitleWidth E =
      (E.screenWidth - 2 * 20) - E.screenWidth.tdiv 3 - 2 * 25 -
        E.getTextWidth FontId.ui12 "...".toList := by
  simp [availableTitleWidth, layout]

theorem truncateLoop_keeps_fitting_title (E : Env) (fuel : Nat) (title : Str) (tr : Bool)
    (hfuel : title.length < fuel)
    (hw : E.getTextWidth FontId.ui12 title ≤ availableTitleWidth E) :
    truncateLoop E fuel title tr = some (title, tr) := by
  cases fuel with
  | zero => omega
  | succ k =>
    have hnot : ¬ E.getTextWidth FontId.ui12 title > availableTitleWidth E := by omega
    simp only [truncateLoop, hnot, if_false]

theorem sampleEnv_removesLastChar : RemovesLastChar sampleEnv := by
  intro t ht
  refine ⟨List.dropLast_prefix t, ?_⟩
  have : 0 < t.length := List.length_pos.mpr ht
  simp only [sampleEnv, List.length_dropLast]
  omega

theorem sampleEnv_emptyTitleFits : EmptyTitleFits sampleEnv := by
  unfold EmptyTitleFits
  decide

/-- C10: the layout of render() has bookCardWidth = pageWidth - 2 * 20,
bookWidth = pageWidth / 3 and bookCardInnerMargin = 25.  When the empty string
is no wider than bookCardWidth - bookWidth - 2 * bookCardInnerMargin -
ellipsisWidth, the title-truncation loop of render() stops for every title
within length + 1 tests of its condition (and so for any larger number): it
ends with a prefix of the original title whose width is at most
bookCardWidth - bookWidth - 2 * bookCardInnerMargin - ellipsisWidth, a title
that already fits is kept whole, "truncated" is set exactly when the prefix is
shorter than the title, and "..." is appended exactly then.  utf8RemoveLastChar
is taken to leave a shorter prefix of a non-empty string. -/
theorem title_truncation_terminates (E : Env) (hrm : RemovesLastChar E)
    (hfit : E.getTextWidth FontId.ui12 [] ≤
      (E.screenWidth - 2 * 20) - E.screenWidth.tdiv 3 - 2 * 25 -
        E.getTextWidth FontId.ui12 "...".toList)
    (s : State) (fuel : Nat)
    (hfuel : s.lastBookTitle.length < fuel) :
    ((layout E).bookCardWidth = E.screenWidth - 2 * 20 ∧
      (layout E).bookWidth = E.screenWidth.tdiv 3 ∧
      (layout E).bookCardInnerMargin = 25) ∧
    ∃ (t : Str) (truncated : Bool),
      truncateLoop E fuel s.lastBookTitle false = some (t, truncated) ∧
      t <+: s.lastBookTitle ∧
      E.getTextWidth FontId.ui12 t ≤
        (layout E).bookCardWidth - (layout E).bookWidth - 2 * (layout E).bookCardInnerMargin -
          E.getTextWidth FontId.ui12 "...".toList ∧
      E.getTextWidth FontId.ui12 t ≤
        (E.screenWidth - 2 * 20) - E.screenWidth.tdiv 3 - 2 * 25 -
          E.getTextWidth FontId.ui12 "...".toList ∧
      (E.getTextWidth FontId.ui12 s.lastBookTitle ≤
          (E.screenWidth - 2 * 20) - E.screenWidth.tdiv 3 - 2 * 25 -
            E.getTextWidth FontId.ui12 "...".toList →
        t = s.lastBookTitle ∧ truncated = false) ∧
      (truncated = true ↔ t.length < s.lastBookTitle.length) ∧
      truncateTitle E fuel s =
        some { s with lastBookTitle := if truncated then t ++ "...".toList else t } := by
  have havail := availableTitleWidth_eq E
  have hfit' : EmptyTitleFits E := by
    unfold EmptyTitleFits
    rw [havail]
    exact hfit
  obtain ⟨t, tr', hrun, hpre, hw, htr⟩ :=
    truncateLoop_spec E hrm hfit' fuel s.lastBookTitle false hfuel
  refine ⟨⟨rfl, rfl, rfl⟩, t, tr', hrun, hpre, ?_, ?_, ?_, ?_, ?_⟩
  · have hl : (layout E).bookCardWidth - (layout E).bookWidth -
        2 * (layout E).bookCardInnerMargin - E.getTextWidth FontId.ui12 "...".toList
        = availableTitleWidth E := rfl
    rw [hl]
    exact hw
  · rw [← havail]
    exact hw
  · intro hfits
    rw [← havail] at hfits
    have hkeep := truncateLoop_keeps_fitting_title E fuel s.lastBookTitle false hfuel hfits
    rw [hkeep] at hrun
    simp only [Option.some.injEq, Prod.mk.injEq] at hrun
    exact ⟨hrun.1.symm, hrun.2.symm⟩
  · simpa using htr
  · simp only [truncateTitle, hrun]

theorem title_truncation_terminates_witness :
    (RemovesLastChar sampleEnv ∧
      sampleEnv.getTextWidth FontId.ui12 [] ≤
        (sampleEnv.screenWidth - 2 * 20) - sampleEnv.screenWidth.tdiv 3 - 2 * 25 -
          sampleEnv.getTextWidth FontId.ui12 "...".toList ∧
      ({ blank true false with lastBookTitle := "A Very Long Book Title Indeed".toList } :
        State).lastBookTitle.length < 30) ∧
    ∃ (t : Str) (truncated : Bool),
      truncateLoop sampleEnv 30 "A Very Long Book Title Indeed".toList false
        = some (t, truncated) ∧
      t <+: "A Very Long Book Title Indeed".toList ∧
      sampleEnv.getTextWidth FontId.ui12 t ≤
        (sampleEnv.screenWidth - 2 * 20) - sampleEnv.screenWidth.tdiv 3 - 2 * 25 -
          sampleEnv.getTextWidth FontId.ui12 "...".toList ∧
      (truncated = true ↔ t.length < "A Very Long Book Title Indeed".toList.length) :=
  ⟨⟨sampleEnv_removesLastChar, by decide, by decide⟩,
   (title_truncation_terminates sampleEnv sampleEnv_removesLastChar (by decide)
      { blank true false with lastBookTitle := "A Very Long Book Title Indeed".toList } 30
      (by decide)).2.imp fun _ h => h.imp fun _ h =>
        ⟨h.1, h.2.1, h.2.2.2.1, h.2.2.2.2.2.1⟩⟩

theorem truncateTitle_sample :
    (truncateTitle sampleEnv 30
      { blank true false with lastBookTitle := "A Very Long Book Title Indeed".toList }).map
        (fun s => s.lastBookTitle) = some "A Very Long Book Tit...".toList := by
  decide

/-! ### render returns -/

theorem storeCoverBuffer_lastBookTitle (E : Env) (m : Option (List Byte)) (s : State) (g : Gfx) :
    (storeCoverBuffer E m s g).2.lastBookTitle = s.lastBookTitle := by
  unfold storeCoverBuffer freeCoverBuffer
  cases g.frameBuffer <;> cases m <;> cases s.coverBuffer <;> simp

theorem storeCoverBuffer_updateRequired (E : Env) (m : Option (List Byte)) (s : State) (g : Gfx) :
    (storeCoverBuffer E m s g).2.updateRequired = s.updateRequired := by
  unfold storeCoverBuffer freeCoverBuffer
  cases g.frameBuffer <;> cases m <;> cases s.coverBuffer <;> simp

theorem renderCover_lastBookTitle (E : Env) (w : RenderWorld) (s : State) (g : Gfx) :
    (renderCover E w s g).1.lastBookTitle = s.lastBookTitle := by
  unfold renderCover
  simp only
  split_ifs <;> simp [storeCoverBuffer_lastBookTitle]

theorem renderCover_updateRequired (E : Env) (w : RenderWorld) (s : State) (g : Gfx) :
    (renderCover E w s g).1.updateRequired = s.updateRequired := by
  unfold renderCover
  simp only
  split_ifs <;> simp [storeCoverBuffer_updateRequired]

theorem render_returns (E : Env) (hrm : RemovesLastChar E) (hfit : EmptyTitleFits E)
    (w : RenderWorld) (fuel : Nat) (s : State) (g : Gfx)
    (hfuel : s.lastBookTitle.length < fuel) :
    ∃ (s' : State) (g' : Gfx), render E w fuel s g = some (s', g') ∧
      s'.updateRequired = s.updateRequired := by
  unfold render
  simp only
  by_cases hb : showsBook s = true
  · obtain ⟨t, tr, hrun, -, -, -⟩ :=
      truncateLoop_spec E hrm hfit fuel
        (renderCover E w s (renderBackground E s g)).1.lastBookTitle false
        (by rw [renderCover_lastBookTitle]; exact hfuel)
    simp only [hb, if_true, truncateTitle, hrun]
    exact ⟨_, _, rfl, by simp [renderCover_updateRequired]⟩
  · simp only [hb, if_false]
    exact ⟨_, _, rfl, rfl⟩

/-! ### The dirty flag -/

theorem loop_updateRequired (s : State) (inp : MappedInput) :
    (loop s inp).1.updateRequired = (s.updateRequired || isSelectionPress inp) := by
  unfold loop isSelectionPress
  simp only
  cases hc : inp.releasedConfirm
  · cases hp : (inp.pressedUp || inp.pressedLeft)
    · cases hn : (inp.pressedDown || inp.pressedRight) <;> simp
    · simp
  · simp only [if_true]
    split_ifs <;> simp

theorem loop_lastBookTitle (s : State) (inp : MappedInput) :
    (loop s inp).1.lastBookTitle = s.lastBookTitle := by
  unfold loop
  simp only
  split_ifs <;> rfl

theorem loopMany_lastBookTitle (inputs : List MappedInput) (s : State) :
    (loopMany s inputs).lastBookTitle = s.lastBookTitle := by
  induction inputs generalizing s with
  | nil => rfl
  | cons i rest ih => simp only [loopMany, ih, loop_lastBookTitle]

theorem loopMany_updateRequired (inputs : List MappedInput) (s : State) :
    (loopMany s inputs).updateRequired = (s.updateRequired || inputs.any isSelectionPress) := by
  induction inputs generalizing s with
  | nil => simp [loopMany]
  | cons i rest ih => simp only [loopMany, ih, loop_updateRequired, List.any_cons, Bool.or_assoc]

theorem displayTaskLoop_dirty (E : Env) (hrm : RemovesLastChar E) (hfit : EmptyTitleFits E)
    (w : RenderWorld) (fuel : Nat) (s : State) (g : Gfx)
    (hdirty : s.updateRequired = true) (hfuel : s.lastBookTitle.length < fuel) :
    ∃ (s' : State) (g' : Gfx),
      render E w fuel { s with updateRequired := false } g = some (s', g') ∧
      displayTaskLoop E w fuel s g =
        some (s', g', [Event.xSemaphoreTake, Event.render, Event.xSemaphoreGive,
          Event.vTaskDelay]) ∧
      s'.updateRequired = false := by
  obtain ⟨s', g', hr, hu⟩ :=
    render_returns E hrm hfit w fuel { s with updateRequired := false } g hfuel
  refine ⟨s', g', hr, ?_, hu⟩
  simp only [displayTaskLoop, hdirty, if_true, hr]

theorem displayTaskLoop_clean (E : Env) (w : RenderWorld) (fuel : Nat) (s : State) (g : Gfx)
    (hclean : s.updateRequired = false) :
    displayTaskLoop E w fuel s g = some (s, g, [Event.vTaskDelay]) := by
  simp [displayTaskLoop, hclean]

/-- C8: loop() sets updateRequired exactly when it handles a Prev or Next press
(otherwise it leaves the flag); an iteration of displayTaskLoop() that finds the
flag set clears it, then calls render() once, between the take and the give of
the mutex, and ends with the flag clear; an iteration that finds it clear calls
render() zero times; so after n >= 1 selection presses the next iteration
renders exactly once and the one after it zero times.  loop() calls and
iterations are taken one at a time; render() returns under the conditions of
the title loop. -/
theorem dirty_flag_renders_exactly_once (E : Env) (hrm : RemovesLastChar E)
    (hfit : EmptyTitleFits E) :
    (∀ (s : State) (inp : MappedInput),
      (loop s inp).1.updateRequired = (s.updateRequired || isSelectionPress inp)) ∧
    (∀ (w : RenderWorld) (fuel : Nat) (s : State) (g : Gfx),
      s.updateRequired = true → s.lastBookTitle.length < fuel →
      ∃ (s' : State) (g' : Gfx),
        render E w fuel { s with updateRequired := false } g = some (s', g') ∧
        displayTaskLoop E w fuel s g =
          some (s', g', [Event.xSemaphoreTake, Event.render, Event.xSemaphoreGive,
            Event.vTaskDelay]) ∧
        s'.updateRequired = false) ∧
    (∀ (w : RenderWorld) (fuel : Nat) (s : State) (g : Gfx),
      s.updateRequired = false →
      displayTaskLoop E w fuel s g = some (s, g, [Event.vTaskDelay])) ∧
    (∀ (w1 w2 : RenderWorld) (fuel1 fuel2 : Nat) (s : State) (g : Gfx)
      (presses : List MappedInput),
      presses ≠ [] → (∀ p ∈ presses, isSelectionPress p = true) →
      s.lastBookTitle.length < fuel1 →
      ∃ (s1 : State) (g1 : Gfx) (ev1 ev2 : List Event),
        displayTaskLoop E w1 fuel1 (loopMany s presses) g = some (s1, g1, ev1) ∧
        ev1.count Event.render = 1 ∧
        displayTaskLoop E w2 fuel2 s1 g1 = some (s1, g1, ev2) ∧
        ev2.count Event.render = 0) := by
  refine ⟨loop_updateRequired, ?_, ?_, ?_⟩
  · intro w fuel s g hd hf
    exact displayTaskLoop_dirty E hrm hfit w fuel s g hd hf
  · intro w fuel s g hc
    exact displayTaskLoop_clean E w fuel s g hc
  · intro w1 w2 fuel1 fuel2 s g presses hne hall hf
    have hdirty : (loopMany s presses).updateRequired = true := by
      rw [loopMany_updateRequired]
      cases presses with
      | nil => exact absurd rfl hne
      | cons p rest => simp [hall p (List.mem_cons_self p rest)]
    obtain ⟨s1, g1, -, h1, hu⟩ :=
      displayTaskLoop_dirty E hrm hfit w1 fuel1 (loopMany s presses) g hdirty
        (by rw [loopMany_lastBookTitle]; exact hf)
    exact ⟨s1, g1, _, _, h1, by decide, displayTaskLoop_clean E w2 fuel2 s1 g1 hu, by decide⟩

theorem dirty_flag_renders_exactly_once_witness :
    (RemovesLastChar sampleEnv ∧ EmptyTitleFits sampleEnv) ∧
    ∃ (s1 : State) (g1 : Gfx) (ev1 ev2 : List Event),
      displayTaskLoop sampleEnv renderOk 10
        (loopMany bookWithCover [nextOnly, nextOnly, prevOnly]) (gfxOf [255, 255, 255, 255])
        = some (s1, g1, ev1) ∧
      ev1.count Event.render = 1 ∧
      displayTaskLoop sampleEnv renderOk 10 s1 g1 = some (s1, g1, ev2) ∧
      ev2.count Event.render = 0 :=
  ⟨⟨sampleEnv_removesLastChar, sampleEnv_emptyTitleFits⟩,
   (dirty_flag_renders_exactly_once sampleEnv sampleEnv_removesLastChar
      sampleEnv_emptyTitleFits).2.2.2 renderOk renderOk 10 10 bookWithCover
      (gfxOf [255, 255, 255, 255]) [nextOnly, nextOnly, prevOnly]
      (by simp) (by decide) (by decide)⟩

/-! ### Teardown -/

/-- C9, as the code has it: onExit() takes the mutex, deletes the render task
when a task handle exists, deletes the mutex (it never gives it back), then
frees the cover buffer, in this order; afterwards no buffer is stored
(coverBuffer is null, coverBufferStored is false) and both handles are null.  An
iteration of displayTaskLoop() that finds updateRequired set takes the mutex
once and gives it once, after render(); one that finds it clear does neither. -/
theorem onExit_trace_and_gate_pairing (E : Env) (hrm : RemovesLastChar E)
    (hfit : EmptyTitleFits E) (s : State) :
    (onExit s).2 =
      [Event.xSemaphoreTake] ++ (if s.displayTaskHandle then [Event.vTaskDelete] else []) ++
        [Event.vSemaphoreDelete, Event.freeCoverBuffer] ∧
    (onExit s).1.coverBuffer = none ∧
    (onExit s).1.coverBufferStored = false ∧
    (onExit s).1.displayTaskHandle = false ∧
    (onExit s).1.renderingMutex = false ∧
    (∀ (w : RenderWorld) (fuel : Nat) (g : Gfx), s.lastBookTitle.length < fuel →
      ∃ (s' : State) (g' : Gfx),
        displayTaskLoop E w fuel s g =
          some (s', g',
            if s.updateRequired then
              [Event.xSemaphoreTake, Event.render, Event.xSemaphoreGive, Event.vTaskDelay]
            else [Event.vTaskDelay])) := by
  refine ⟨?_, ?_, ?_, ?_, ?_, ?_⟩
  · unfold onExit
    cases hd : s.displayTaskHandle <;> simp
  · unfold onExit freeCoverBuffer
    cases hd : s.displayTaskHandle <;> cases h : s.coverBuffer <;> simp [h]
  · unfold onExit freeCoverBuffer
    cases hd : s.displayTaskHandle <;> simp
  · unfold onExit freeCoverBuffer
    cases hd : s.displayTaskHandle <;> cases h : s.coverBuffer <;> simp [h, hd]
  · unfold onExit freeCoverBuffer
    cases hd : s.displayTaskHandle <;> cases h : s.coverBuffer <;> simp [h]
  · intro w fuel g hf
    cases hu : s.updateRequired
    · exact ⟨s, g, by simpa using displayTaskLoop_clean E w fuel s g hu⟩
    · obtain ⟨s', g', -, h, -⟩ := displayTaskLoop_dirty E hrm hfit w fuel s g hu hf
      exact ⟨s', g', by simpa using h⟩

theorem onExit_trace_and_gate_pairing_witness :
    (RemovesLastChar sampleEnv ∧ EmptyTitleFits sampleEnv) ∧
    (onExit bookWithCover).2 =
      [Event.xSemaphoreTake, Event.vTaskDelete, Event.vSemaphoreDelete,
        Event.freeCoverBuffer] ∧
    (onExit bookWithCover).1.coverBuffer = none ∧
    (onExit bookWithCover).1.coverBufferStored = false :=
  ⟨⟨sampleEnv_removesLastChar, sampleEnv_emptyTitleFits⟩,
   (onExit_trace_and_gate_pairing sampleEnv sampleEnv_removesLastChar
      sampleEnv_emptyTitleFits bookWithCover).1,
   (onExit_trace_and_gate_pairing sampleEnv sampleEnv_removesLastChar
      sampleEnv_emptyTitleFits bookWithCover).2.1,
   (onExit_trace_and_gate_pairing sampleEnv sampleEnv_removesLastChar
      sampleEnv_emptyTitleFits bookWithCover).2.2.1⟩

/-- C9 as stated fails: after an onEnter() that created the render task, the
calls of onExit() are take, delete task, delete mutex, free cover buffer; the
mutex is taken once and given zero times. -/
theorem onExit_takes_without_give :
    (onExit (onEnter sampleEnv enterEpubNoMetadata (blank false false))).2 =
      [Event.xSemaphoreTake, Event.vTaskDelete, Event.vSemaphoreDelete,
        Event.freeCoverBuffer] ∧
    (onExit (onEnter sampleEnv enterEpubNoMetadata (blank false false))).2.count
      Event.xSemaphoreTake = 1 ∧
    (onExit (onEnter sampleEnv enterEpubNoMetadata (blank false false))).2.count
      Event.xSemaphoreGive = 0 := by
  decide

/-! ### Evaluations -/

/-- C7 at `/books/novel.epub`: when the EPUB yields no title and no thumbnail,
onEnter() leaves lastBookTitle = "novel.epub", the file name with its
extension; hasCoverImage stays false, selectorIndex = 0, updateRequired = true.
For `/books/novel.xtc` and `/books/novel.xtch` the title is "novel". -/
theorem epub_fallback_title_keeps_extension :
    (onEnter sampleEnv enterEpubNoMetadata (blank false false)).lastBookTitle
      = "novel.epub".toList ∧
    (onEnter sampleEnv enterEpubNoMetadata (blank false false)).hasCoverImage = false ∧
    (onEnter sampleEnv enterEpubNoMetadata (blank false false)).selectorIndex = 0 ∧
    (onEnter sampleEnv enterEpubNoMetadata (blank false false)).updateRequired = true ∧
    (onEnter sampleEnv enterXtcNoMetadata (blank false false)).lastBookTitle
      = "novel".toList ∧
    (onEnter sampleEnv enterXtchNoMetadata (blank false false)).lastBookTitle
      = "novel".toList := by
  decide

/-- C2 at hasContinueReading = false, hasOpdsUrl = true, selectorIndex = 2:
render() draws five tiles while getMenuItemCount() is 4; the tile it draws as
selected is "Calibre Library", whose handler is onOpdsBrowserOpen; a Confirm
release in loop() invokes onFileTransferOpen. -/
theorem render_menu_differs_from_dispatch :
    menuItems noBookWithOpdsAtTwo =
      ["Continue Reading".toList, "Browse Files".toList, "Calibre Library".toList,
        "File Transfer".toList, "Settings".toList] ∧
    getMenuItemCount noBookWithOpdsAtTwo = 4 ∧
    (render sampleEnv renderOk 1 noBookWithOpdsAtTwo (gfxOf [0, 0, 0, 0])).map
      (fun r => highlightedLabels r.2.calls) = some ["Calibre Library".toList] ∧
    handlerOfLabel "Calibre Library".toList = some Handler.onOpdsBrowserOpen ∧
    (loop noBookWithOpdsAtTwo confirmOnly).2 = [Handler.onFileTransferOpen] := by
  decide

/-- C6 at a first render() whose malloc fails: that render draws the cover and
leaves coverRendered = true, coverBufferStored = false; the next render(), with
the cover file readable and decodable, starts with clearScreen, makes no
drawBitmap call, and flushes a frame buffer without the cover. -/
theorem no_cover_after_failed_store :
    (firstRenderNoMemory.map (fun r => r.1.coverRendered) = some true ∧
      firstRenderNoMemory.map (fun r => r.1.coverBufferStored) = some false ∧
      firstRenderNoMemory.map (fun r => r.2.calls.any isDrawBitmap) = some true ∧
      firstRenderNoMemory.map (fun r => r.2.frameBuffer) = some (some [0, 255, 255, 255])) ∧
    (secondRenderAfterNoMemory.map (fun r => r.1.coverRendered) = some true ∧
      secondRenderAfterNoMemory.map (fun r => r.1.coverBufferStored) = some false ∧
      secondRenderAfterNoMemory.map (fun r => r.2.calls.head?) = some (some GfxCall.clearScreen) ∧
      secondRenderAfterNoMemory.map (fun r => r.2.calls.any isDrawBitmap) = some false ∧
      secondRenderAfterNoMemory.map (fun r => r.2.calls.getLast?)
        = some (some GfxCall.displayBuffer) ∧
      secondRenderAfterNoMemory.map (fun r => r.2.frameBuffer)
        = some (some [255, 255, 255, 255])) := by
  decide

/-! ### Supporting facts for the evaluations -/

theorem truncateLoop_more_fuel (E : Env) (k : Nat) :
    ∀ (fuel : Nat) (title : Str) (tr : Bool) (r : Str × Bool),
      truncateLoop E fuel title tr = some r → truncateLoop E (fuel + k) title tr = some r := by
  intro fuel
  induction fuel with
  | zero => intro title tr r h; simp [truncateLoop] at h
  | succ fuel ih =>
    intro title tr r h
    have hk : fuel + 1 + k = (fuel + k) + 1 := by omega
    rw [hk]
    by_cases hw : E.getTextWidth FontId.ui12 title > availableTitleWidth E
    · simp only [truncateLoop, hw, if_true] at h ⊢
      exact ih _ _ _ h
    · simp only [truncateLoop, hw, if_false] at h ⊢
      exact h

theorem menuItems_length (s : State) :
    ((menuItems s).length : Int) = 4 + (if s.hasOpdsUrl then 1 else 0) := by
  unfold menuItems
  cases s.hasOpdsUrl <;> simp

theorem menuItems_length_without_book (s : State) (h : s.hasContinueReading = false) :
    ((menuItems s).length : Int) = getMenuItemCount s + 1 := by
  rw [menuItems_length, getMenuItemCount_eq, h]
  cases s.hasOpdsUrl <;> simp

theorem menuItems_length_with_book (s : State) (h : s.hasContinueReading = true) :
    ((menuItems s).length : Int) = getMenuItemCount s := by
  rw [menuItems_length, getMenuItemCount_eq, h]
  cases s.hasOpdsUrl <;> simp

theorem onEnter_epub_without_title (E : Env) (w : EnterWorld) (s : State)
    (hpath : w.openEpubPath ≠ []) (hexists : w.pathExists = true)
    (hext : E.checkFileExtension (fileNameOf w.openEpubPath) ".epub".toList = true)
    (htitle : w.epub.title = []) :
    (onEnter E w s).lastBookTitle = fileNameOf w.openEpubPath := by
  have hne : w.openEpubPath.isEmpty = false := by
    cases h : w.openEpubPath with
    | nil => exact absurd h hpath
    | cons c cs => rfl
  unfold fileNameOf at hext ⊢
  unfold onEnter
  cases hslash : findLastOf w.openEpubPath '/' <;>
    cases hthumb : w.epub.thumbBmp <;>
    cases hauthor : w.epub.author <;>
    simp_all

theorem drawTiles_calls (E : Env) (s : State) (menuStartY : Int) :
    ∀ (items : List Str) (i : Nat) (g : Gfx),
      ∃ extra : List GfxCall,
        (drawTiles E s menuStartY i items g).calls = g.calls ++ extra ∧
        extra.any isDrawBitmap = false := by
  intro items
  induction items with
  | nil => intro i g; exact ⟨[], by simp [drawTiles], rfl⟩
  | cons label rest ih =>
    intro i g
    have step : ∀ c1 c2 : GfxCall, isDrawBitmap c1 = false → isDrawBitmap c2 = false →
        ∃ extra : List GfxCall,
          (drawTiles E s menuStartY (i + 1) rest ((g.call E c1).call E c2)).calls
            = g.calls ++ extra ∧ extra.any isDrawBitmap = false := by
      intro c1 c2 h1 h2
      obtain ⟨extra, hcalls, hany⟩ := ih (i + 1) ((g.call E c1).call E c2)
      refine ⟨c1 :: c2 :: extra, ?_, ?_⟩
      · rw [hcalls]
        simp [Gfx.call]
      · simp [h1, h2, hany]
    simp only [drawTiles]
    split_ifs <;> exact step _ _ rfl rfl

theorem renderMenu_calls (E : Env) (s : State) (g : Gfx) :
    ∃ extra : List GfxCall,
      (renderMenu E s g).calls = g.calls ++ extra ∧ extra.any isDrawBitmap = false := by
  unfold renderMenu
  exact drawTiles_calls E s _ _ _ _

theorem renderCardText_calls (E : Env) (s : State) (g : Gfx) :
    ∃ extra : List GfxCall,
      (renderCardText E s g).calls = g.calls ++ extra ∧ extra.any isDrawBitmap = false := by
  unfold renderCardText
  exact ⟨_, by simp only [Gfx.call, List.append_assoc]; rfl, by simp [isDrawBitmap]⟩

theorem renderFooter_calls (E : Env) (w : RenderWorld) (g : Gfx) :
    ∃ extra : List GfxCall,
      (renderFooter E w g).calls = g.calls ++ extra ∧ extra.any isDrawBitmap = false := by
  unfold renderFooter
  exact ⟨_, by simp only [Gfx.call, List.append_assoc]; rfl, by simp [isDrawBitmap]⟩

theorem renderBackground_calls_without_snapshot (E : Env) (s : State) (g : Gfx)
    (hs : s.coverBufferStored = false) :
    ∃ c : GfxCall, (renderBackground E s g).calls = g.calls ++ [GfxCall.clearScreen, c] ∧
      isDrawBitmap c = false := by
  refine ⟨GfxCall.drawRoundedRect (layout E).bookCardX (layout E).bookCardY
    (layout E).bookCardWidth (layout E).bookCardHeight (layout E).bookCardCornerRadius, ?_, rfl⟩
  simp [renderBackground, hs, Gfx.call]

theorem truncateTitle_flags (E : Env) (fuel : Nat) (s s' : State)
    (h : truncateTitle E fuel s = some s') :
    s'.coverRendered = s.coverRendered ∧ s'.coverBufferStored = s.coverBufferStored := by
  unfold truncateTitle at h
  cases hl : truncateLoop E fuel s.lastBookTitle false with
  | none => simp [hl] at h
  | some r =>
    simp only [hl, Option.some.injEq] at h
    subst h
    exact ⟨rfl, rfl⟩

theorem render_without_snapshot_draws_no_cover (E : Env) (w : RenderWorld) (fuel : Nat)
    (s s' : State) (g g' : Gfx)
    (hr : s.coverRendered = true) (hs : s.coverBufferStored = false)
    (h : render E w fuel s g = some (s', g')) :
    (∃ rest : List GfxCall,
      g'.calls = g.calls ++ GfxCall.clearScreen :: rest ∧ rest.any isDrawBitmap = false) ∧
    s'.coverRendered = true ∧ s'.coverBufferStored = false := by
  obtain ⟨c0, hbg, hc0⟩ := renderBackground_calls_without_snapshot E s g hs
  have hcover : renderCover E w s (renderBackground E s g) = (s, renderBackground E s g) := by
    simp [renderCover, hr]
  unfold render at h
  simp only at h
  by_cases hb : showsBook s = true
  · simp only [hb, if_true, hcover] at h
    cases ht : truncateTitle E fuel s with
    | none => simp [ht] at h
    | some s1 =>
      simp only [ht, Option.some.injEq, Prod.mk.injEq] at h
      obtain ⟨hf1, hf2⟩ := truncateTitle_flags E fuel s s1 ht
      obtain ⟨e1, h1, a1⟩ := renderCardText_calls E s1 (renderBackground E s g)
      obtain ⟨e2, h2, a2⟩ := renderMenu_calls E s1 (renderCardText E s1 (renderBackground E s g))
      obtain ⟨e3, h3, a3⟩ := renderFooter_calls E w
        (renderMenu E s1 (renderCardText E s1 (renderBackground E s g)))
      obtain ⟨rfl, rfl⟩ := h
      refine ⟨⟨c0 :: (e1 ++ e2 ++ e3), ?_, ?_⟩, by rw [hf1, hr], by rw [hf2, hs]⟩
      · rw [h3, h2, h1, hbg]
        simp
      · simp [hc0, a1, a2, a3]
  · simp only [hb, if_false, Option.some.injEq, Prod.mk.injEq] at h
    obtain ⟨e2, h2, a2⟩ := renderMenu_calls E s (renderBackground E s g)
    obtain ⟨e3, h3, a3⟩ := renderFooter_calls E w (renderMenu E s (renderBackground E s g))
    obtain ⟨rfl, rfl⟩ := h
    refine ⟨⟨c0 :: (e2 ++ e3), ?_, ?_⟩, hr, hs⟩
    · rw [h3, h2, hbg]
      simp
    · simp [hc0, a2, a3]

theorem storeCoverBuffer_no_memory (E : Env) (s : State) (g : Gfx) :
    (storeCoverBuffer E none s g).1 = false ∧
      (storeCoverBuffer E none s g).2.coverRendered = s.coverRendered := by
  unfold storeCoverBuffer freeCoverBuffer
  cases g.frameBuffer <;> cases s.coverBuffer <;> simp

theorem render_failed_store_flags (E : Env) (w : RenderWorld) (fuel : Nat)
    (s s' : State) (g g' : Gfx)
    (hb : showsBook s = true) (hr : s.coverRendered = false)
    (ho : w.openFileOk = true) (hp : w.parseHeadersOk = true) (hm : w.malloc = none)
    (h : render E w fuel s g = some (s', g')) :
    s'.coverRendered = true ∧ s'.coverBufferStored = false := by
  unfold render at h
  simp only [hb, if_true] at h
  cases ht : truncateTitle E fuel (renderCover E w s (renderBackground E s g)).1 with
  | none => simp [ht] at h
  | some s1 =>
    simp only [ht, Option.some.injEq, Prod.mk.injEq] at h
    obtain ⟨hf1, hf2⟩ := truncateTitle_flags E fuel _ s1 ht
    obtain ⟨rfl, -⟩ := h
    rw [hf1, hf2]
    simp [renderCover, hr, ho, hp, hm, (storeCoverBuffer_no_memory E s _).1]

theorem render_agrees_with_dispatch_with_book (E : Env) (s : State) (g : Gfx)
    (hcr : s.hasContinueReading = true)
    (hlo : 0 ≤ s.selectorIndex) (hhi : s.selectorIndex < getMenuItemCount s) :
    ∃ label : Str,
      highlightedLabels (renderMenu E s { g with calls := [] }).calls = [label] ∧
      (loop s confirmOnly).2 = (handlerOfLabel label).toList := by
  obtain ⟨cr, opds, a3, a4, a5, a6, i, a8, a9, a10, a11, a12, a13, a14, a15, a16⟩ := s
  simp only at hcr
  subst hcr
  simp only [getMenuItemCount] at hhi
  simp only at hlo
  cases opds <;> simp at hhi <;> interval_cases i <;>
    simp [renderMenu, drawTiles, menuItems, Gfx.call, highlightedLabels, loop, confirmOnly] <;>
    decide

end HomeActivity
